import Mathlib

/-!
Verification of the mDNS proxy relay engine (mdns_proxy.py).

The embedding models IPv4 addresses as natural numbers below 2^32.
The Python code builds IPv4Network values and compares their network
addresses; a network address is the bitwise AND of the address with the
netmask, which we model with Nat.land.

MDNSProxy.start (lines 106-142) runs a receive loop.  Per received
packet it classifies the source against every configured interface in
order: a /32 same-address match sets same_address and exits the loop at
once; otherwise a subnet match sets local_network and adds an agency
only when the interface has reverse set, while a subnet mismatch always
adds an agency.  If local_network is set and same_address is not, every
collected agency is started; MDNSAgency.start (lines 70-82) sends the
payload to each forward target whose /32 network differs from the
/32 network of the packet source.  Only socket.timeout is caught by the
loop (line 141); any other exception escapes the loop.
-/

namespace MdnsProxy

/-- The all-ones /32 netmask 255.255.255.255 used at lines 114-115 and 77-80. -/
def mask32 : Nat := 4294967295

/-- One entry of the configured interface list (lines 31-54): address,
netmask, forward targets and the reverse flag. -/
structure Interface where
  ip : Nat
  mask : Nat
  forwardto : List Nat
  reverse : Bool
  deriving Repr, DecidableEq

/-- A received datagram: recieve[0] is the payload, recieve[1] is the
(source address, source port) pair. -/
structure Packet where
  payload : List Nat
  srcAddr : Nat
  srcPort : Nat
  deriving Repr, DecidableEq

/-- network_address of IPv4Network((a, m), strict=False): the address
masked by the netmask. -/
def networkAddress (a m : Nat) : Nat := a &&& m

/-- Lines 114-116: the /32 networks of the interface address and of the
packet source have the same network address. -/
def sameAddrCheck (i : Interface) (src : Nat) : Bool :=
  networkAddress i.ip mask32 == networkAddress src mask32

/-- Lines 120-124: the source masked by the interface netmask equals the
network address of the interface. -/
def subnetMatch (i : Interface) (src : Nat) : Bool :=
  networkAddress i.ip i.mask == networkAddress src i.mask

/-- The state captured by an MDNSAgency built at lines 132-133: the
interface address, its forward targets and the received datagram. -/
structure Agency where
  ip : Nat
  forwardto : List Nat
  data : Packet
  deriving Repr, DecidableEq

/-- One outbound datagram produced by sock.sendto at line 81. -/
structure Send where
  target : Nat
  port : Nat
  payload : List Nat
  deriving Repr, DecidableEq

def mkAgency (i : Interface) (pkt : Packet) : Agency :=
  { ip := i.ip, forwardto := i.forwardto, data := pkt }

/-- The three values produced by the classification loop of lines
110-133: local_network, same_address and the agencies list. -/
structure Classification where
  localNetwork : Bool
  sameAddress : Bool
  agencies : List Agency
  deriving Repr, DecidableEq

/-- The per-packet loop over the interface list, lines 113-133.  The
head interface is examined first; a same-address match breaks out of the
loop, so the recursive result for the remaining interfaces is discarded
in that case. -/
def classifyLoop (pkt : Packet) : List Interface → Classification
  | [] => { localNetwork := false, sameAddress := false, agencies := [] }
  | i :: rest =>
    if sameAddrCheck i pkt.srcAddr then
      { localNetwork := false, sameAddress := true, agencies := [] }
    else
      let restC := classifyLoop pkt rest
      if subnetMatch i pkt.srcAddr then
        if i.reverse then
          { localNetwork := true, sameAddress := restC.sameAddress,
            agencies := mkAgency i pkt :: restC.agencies }
        else
          { localNetwork := true, sameAddress := restC.sameAddress,
            agencies := restC.agencies }
      else
        { localNetwork := restC.localNetwork, sameAddress := restC.sameAddress,
          agencies := mkAgency i pkt :: restC.agencies }

/-- Lines 135-139: the agencies are started only when local_network is
set and same_address is not; otherwise nothing happens for this packet. -/
def processPacket (ifs : List Interface) (pkt : Packet) : List Agency :=
  let c := classifyLoop pkt ifs
  if c.localNetwork && !c.sameAddress then c.agencies else []

/-- MDNSAgency.start, lines 77-82: send the payload to every forward
target whose /32 network differs from the /32 network of the source. -/
def Agency.sends (port : Nat) (a : Agency) : List Send :=
  (a.forwardto.filter fun t =>
      !(networkAddress a.data.srcAddr mask32 == networkAddress t mask32)).map
    fun t => { target := t, port := port, payload := a.data.payload }

/-- All datagrams sent while handling one received packet. -/
def executedSends (port : Nat) (ifs : List Interface) (pkt : Packet) : List Send :=
  ((processPacket ifs pkt).map (Agency.sends port)).flatten

/-- same_address after a full two-phase pass, following the spec text:
evaluate the same-address test across all interfaces first. -/
def specSameAddress (src : Nat) (ifs : List Interface) : Bool :=
  ifs.any fun i => sameAddrCheck i src

/-- local_network after a full pass over all interfaces, following the
spec text. -/
def specLocalNetwork (src : Nat) (ifs : List Interface) : Bool :=
  ifs.any fun i => subnetMatch i src

/-- The forward set described by the spec: an interface is selected when
its subnet does not match the source, or it matches and reverse is set. -/
def specForwardSet (pkt : Packet) (ifs : List Interface) : List Agency :=
  (ifs.filter fun i => !(subnetMatch i pkt.srcAddr) || i.reverse).map
    fun i => mkAgency i pkt

/-- The two-phase classification described by the spec for claim C6:
same-address over all interfaces first, then subnet logic, then the
accept gate. -/
def twoPhaseProcess (ifs : List Interface) (pkt : Packet) : List Agency :=
  if specLocalNetwork pkt.srcAddr ifs && !(specSameAddress pkt.srcAddr ifs) then
    specForwardSet pkt ifs
  else []

/-- The interfaces whose agencies the single-pass loop collects,
as a function of the source address alone. -/
def selectedInterfaces (src : Nat) : List Interface → List Interface
  | [] => []
  | i :: rest =>
    if sameAddrCheck i src then []
    else if subnetMatch i src then
      (if i.reverse then [i] else []) ++ selectedInterfaces src rest
    else i :: selectedInterfaces src rest

/-- The same_address flag of the single-pass loop as a function of the
source address alone. -/
def saF (src : Nat) : List Interface → Bool
  | [] => false
  | i :: rest => if sameAddrCheck i src then true else saF src rest

/-- The local_network flag of the single-pass loop as a function of the
source address alone. -/
def lnF (src : Nat) : List Interface → Bool
  | [] => false
  | i :: rest =>
    if sameAddrCheck i src then false else (subnetMatch i src || lnF src rest)

/-- MDNSAgency.start with a fallible sendto, lines 79-82.  The failing
predicate says which targets make sock.sendto raise.  The Python for
loop sends in order; a raised exception propagates at once, so the
targets after the first failing one are never reached.  The result is
the list of datagrams actually sent and a flag that is false exactly
when an exception escaped. -/
def forwardE (failing : Nat → Bool) (src port : Nat) (payload : List Nat) :
    List Nat → List Send × Bool
  | [] => ([], true)
  | t :: ts =>
    if networkAddress src mask32 == networkAddress t mask32 then
      forwardE failing src port payload ts
    else if failing t then ([], false)
    else
      let r := forwardE failing src port payload ts
      ({ target := t, port := port, payload := payload } :: r.1, r.2)

/-- Lines 138-139 with fallible sends: agencies are started in order and
an exception from one agency stops the remaining agencies. -/
def runAgenciesE (failing : Nat → Bool) (port : Nat) : List Agency → List Send × Bool
  | [] => ([], true)
  | a :: rest =>
    let r := forwardE failing a.data.srcAddr port a.data.payload a.forwardto
    if r.2 then
      let r2 := runAgenciesE failing port rest
      (r.1 ++ r2.1, r2.2)
    else (r.1, false)

/-- What one sock.recvfrom call yields: a timeout or a datagram. -/
inductive RecvEvent where
  | timeout
  | packet (p : Packet)
  deriving Repr, DecidableEq

/-- Outcome of one iteration of the while loop: the loop continues, or
an uncaught exception ended it.  Either way the datagrams already sent
are recorded. -/
inductive IterResult where
  | ok (sends : List Send)
  | crashed (sends : List Send)
  deriving Repr, DecidableEq

def IterResult.sendsOf : IterResult → List Send
  | .ok s => s
  | .crashed s => s

/-- The data the loop body reads from self: the interface list and the
port, both never assigned inside the loop. -/
structure ProxyState where
  interfaces : List Interface
  port : Nat
  deriving Repr, DecidableEq

/-- One iteration of the while loop, lines 106-142.  A timeout is caught
by the except clause at line 141 and ignored; any exception raised by a
send is not a socket.timeout, so it escapes the try and ends the loop. -/
def loopIterE (failing : Nat → Bool) (s : ProxyState) : RecvEvent → ProxyState × IterResult
  | .timeout => (s, .ok [])
  | .packet p =>
    let r := runAgenciesE failing s.port (processPacket s.interfaces p)
    (s, if r.2 then .ok r.1 else .crashed r.1)

/-- The while loop run over a finite schedule of receive events; an
uncaught exception terminates it early. -/
def runLoop (failing : Nat → Bool) (s : ProxyState) : List RecvEvent → List IterResult
  | [] => []
  | ev :: evs =>
    let r := loopIterE failing s ev
    match r.2 with
    | .ok sends => .ok sends :: runLoop failing r.1 evs
    | .crashed sends => [.crashed sends]

/-- Interface A of the spec scenario: 10.0.0.5/8, forward target
10.0.0.1, reverse false. -/
def ifA : Interface :=
  { ip := 167772165, mask := 4278190080, forwardto := [167772161], reverse := false }

/-- Interface B of the spec scenario: 192.168.1.5/24, forward target
224.0.0.251, reverse false. -/
def ifB : Interface :=
  { ip := 3232235781, mask := 4294967040, forwardto := [3758096635], reverse := false }

def scenarioIfs : List Interface := [ifA, ifB]

/-- The scenario packet: some payload from 192.168.1.50. -/
def scenarioPkt : Packet := { payload := [1, 2, 3], srcAddr := 3232235826, srcPort := 5353 }

lemma land_mask32_of_lt (a : Nat) (h : a < 4294967296) : a &&& mask32 = a := by
  show a &&& 4294967295 = a
  apply Nat.eq_of_testBit_eq
  intro i
  rw [Nat.testBit_land]
  by_cases hi : i < 32
  · have h2 : Nat.testBit 4294967295 i = true := by
      have h3 : (4294967295 : Nat) = 2 ^ 32 - 1 := by norm_num
      rw [h3, Nat.testBit_two_pow_sub_one]
      simpa using hi
    rw [h2, Bool.and_true]
  · have h2 : a.testBit i = false := by
      apply Nat.testBit_eq_false_of_lt
      calc a < 4294967296 := h
        _ = 2 ^ 32 := by norm_num
        _ ≤ 2 ^ i := Nat.pow_le_pow_right (by norm_num) (le_of_not_lt hi)
    rw [h2, Bool.false_and]

lemma sameAddrCheck_true_of_eq (i : Interface) (src : Nat) (h : i.ip = src) :
    sameAddrCheck i src = true := by
  simp [sameAddrCheck, networkAddress, h]

lemma sameAddrCheck_false_iff (i : Interface) (src : Nat)
    (h1 : i.ip < 4294967296) (h2 : src < 4294967296) :
    sameAddrCheck i src = false ↔ i.ip ≠ src := by
  simp [sameAddrCheck, networkAddress, land_mask32_of_lt _ h1, land_mask32_of_lt _ h2]

/-- The single-pass loop in normal form: both flags and the selected
interfaces depend only on the source address, and each agency is the
corresponding interface paired with the received packet. -/
lemma classifyLoop_eq (pkt : Packet) (ifs : List Interface) :
    classifyLoop pkt ifs =
      { localNetwork := lnF pkt.srcAddr ifs, sameAddress := saF pkt.srcAddr ifs,
        agencies := (selectedInterfaces pkt.srcAddr ifs).map fun i => mkAgency i pkt } := by
  induction ifs with
  | nil => rfl
  | cons i rest ih =>
    simp only [classifyLoop, lnF, saF, selectedInterfaces]
    by_cases h1 : sameAddrCheck i pkt.srcAddr
    · simp [h1]
    · by_cases h2 : subnetMatch i pkt.srcAddr
      · by_cases h3 : i.reverse <;> simp [h1, h2, h3, ih]
      · simp [h1, h2, ih]

lemma saF_eq_spec (src : Nat) (ifs : List Interface) :
    saF src ifs = specSameAddress src ifs := by
  induction ifs with
  | nil => rfl
  | cons i rest ih =>
    by_cases h : sameAddrCheck i src <;>
      simp [saF, specSameAddress, List.any_cons, h, ih, specSameAddress] at *

lemma lnF_eq_spec (src : Nat) (ifs : List Interface)
    (h : specSameAddress src ifs = false) :
    lnF src ifs = specLocalNetwork src ifs := by
  induction ifs with
  | nil => rfl
  | cons i rest ih =>
    simp only [specSameAddress, List.any_cons, Bool.or_eq_false_iff] at h
    simp [lnF, specLocalNetwork, List.any_cons, h.1, ih h.2]

lemma selected_eq_spec (src : Nat) (ifs : List Interface)
    (h : specSameAddress src ifs = false) :
    selectedInterfaces src ifs =
      ifs.filter fun i => !(subnetMatch i src) || i.reverse := by
  induction ifs with
  | nil => rfl
  | cons i rest ih =>
    simp only [specSameAddress, List.any_cons, Bool.or_eq_false_iff] at h
    by_cases h2 : subnetMatch i src
    · by_cases h3 : i.reverse <;>
        simp [selectedInterfaces, List.filter_cons, h.1, h2, h3, ih h.2]
    · simp [selectedInterfaces, List.filter_cons, h.1, h2, ih h.2]

/-- The accept gate of line 135 agrees with the two-phase gate. -/
lemma gate_eq (pkt : Packet) (ifs : List Interface) :
    ((classifyLoop pkt ifs).localNetwork && !(classifyLoop pkt ifs).sameAddress)
      = (specLocalNetwork pkt.srcAddr ifs && !(specSameAddress pkt.srcAddr ifs)) := by
  rw [classifyLoop_eq]
  by_cases h : specSameAddress pkt.srcAddr ifs = true
  · simp [saF_eq_spec, h]
  · have hf : specSameAddress pkt.srcAddr ifs = false := by
      simpa using h
    simp [saF_eq_spec, hf, lnF_eq_spec _ _ hf]

lemma processPacket_eq_twoPhase (ifs : List Interface) (pkt : Packet) :
    processPacket ifs pkt = twoPhaseProcess ifs pkt := by
  have hz : processPacket ifs pkt =
      if ((classifyLoop pkt ifs).localNetwork && !(classifyLoop pkt ifs).sameAddress) = true
      then (classifyLoop pkt ifs).agencies else [] := rfl
  rw [hz]
  unfold twoPhaseProcess
  rw [gate_eq]
  by_cases hsa : specSameAddress pkt.srcAddr ifs = true
  · simp [hsa]
  · have hf : specSameAddress pkt.srcAddr ifs = false := by
      simpa using hsa
    simp [hf, classifyLoop_eq, selected_eq_spec _ _ hf, specForwardSet]

/-- With no send failures, the fallible forwarder performs exactly the
sends of MDNSAgency.start. -/
lemma forwardE_nofail (src port : Nat) (payload : List Nat) (ts : List Nat) :
    forwardE (fun _ => false) src port payload ts =
      ((ts.filter fun t =>
          !(networkAddress src mask32 == networkAddress t mask32)).map
        fun t => { target := t, port := port, payload := payload }, true) := by
  induction ts with
  | nil => rfl
  | cons t ts ih =>
    by_cases h : networkAddress src mask32 == networkAddress t mask32 <;>
      simp [forwardE, List.filter_cons, h, ih]

lemma forwardE_nofail_sends (port : Nat) (a : Agency) :
    forwardE (fun _ => false) a.data.srcAddr port a.data.payload a.forwardto
      = (Agency.sends port a, true) := by
  rw [forwardE_nofail]
  rfl

lemma runAgenciesE_nofail (port : Nat) (ags : List Agency) :
    runAgenciesE (fun _ => false) port ags
      = ((ags.map (Agency.sends port)).flatten, true) := by
  induction ags with
  | nil => rfl
  | cons a rest ih => simp [runAgenciesE, forwardE_nofail_sends, ih]

/-- Every datagram the fallible forwarder emits carries the given
payload unchanged. -/
lemma forwardE_payload (failing : Nat → Bool) (src port : Nat) (payload : List Nat)
    (ts : List Nat) :
    ∀ sd ∈ (forwardE failing src port payload ts).1, sd.payload = payload := by
  induction ts with
  | nil => intro sd hsd; cases hsd
  | cons t ts ih =>
    intro sd hsd
    by_cases h1 : networkAddress src mask32 == networkAddress t mask32
    · exact ih sd (by simpa [forwardE, h1] using hsd)
    · by_cases h2 : failing t
      · simp [forwardE, h1, h2] at hsd
      · simp only [forwardE, h1, h2] at hsd
        simp at hsd
        rcases hsd with h | h
        · rw [h]
        · exact ih sd h

lemma runAgenciesE_payload (failing : Nat → Bool) (port : Nat) (ags : List Agency)
    (pl : List Nat) (h : ∀ a ∈ ags, a.data.payload = pl) :
    ∀ sd ∈ (runAgenciesE failing port ags).1, sd.payload = pl := by
  induction ags with
  | nil => intro sd hsd; cases hsd
  | cons a rest ih =>
    intro sd hsd
    have ha : a.data.payload = pl := h a (List.mem_cons_self a rest)
    by_cases h2 : (forwardE failing a.data.srcAddr port a.data.payload a.forwardto).2
    · simp only [runAgenciesE, h2, if_true] at hsd
      rcases List.mem_append.mp hsd with hm | hm
      · rw [forwardE_payload failing _ port _ _ sd hm, ha]
      · exact ih (fun x hx => h x (List.mem_cons_of_mem a hx)) sd hm
    · simp only [runAgenciesE, Bool.not_eq_true] at h2
      simp only [runAgenciesE, h2, if_false] at hsd
      rw [forwardE_payload failing _ port _ _ sd hsd, ha]

/-- Every agency built by the classification loop carries the received
packet itself. -/
lemma processPacket_data (ifs : List Interface) (pkt : Packet) :
    ∀ a ∈ processPacket ifs pkt, a.data = pkt := by
  intro a ha
  have hz : processPacket ifs pkt =
      if ((classifyLoop pkt ifs).localNetwork && !(classifyLoop pkt ifs).sameAddress) = true
      then (classifyLoop pkt ifs).agencies else [] := rfl
  rw [hz] at ha
  by_cases hg : ((classifyLoop pkt ifs).localNetwork && !(classifyLoop pkt ifs).sameAddress) = true
  · rw [if_pos hg, classifyLoop_eq] at ha
    simp only [List.mem_map] at ha
    rcases ha with ⟨i, _, hi⟩
    rw [← hi]
    rfl
  · rw [if_neg hg] at ha
    cases ha

/-- The failing-sendto predicate of the counterexample: only target 5
fails. -/
def failsOn5 : Nat → Bool := fun t => t == 5

def cexIf1 : Interface :=
  { ip := 1, mask := 4294967295, forwardto := [5, 6], reverse := false }

def cexIf2 : Interface :=
  { ip := 2, mask := 4294967295, forwardto := [7], reverse := false }

def cexIf3 : Interface :=
  { ip := 101, mask := 4294967040, forwardto := [7], reverse := false }

def cexIfs : List Interface := [cexIf1, cexIf2, cexIf3]

def cexPkt : Packet := { payload := [9], srcAddr := 100, srcPort := 40 }

def cexState : ProxyState := { interfaces := cexIfs, port := 5353 }

lemma specSameAddress_false (pkt : Packet) (ifs : List Interface)
    (hb : ∀ i ∈ ifs, i.ip < 4294967296) (hs : pkt.srcAddr < 4294967296)
    (h : ∀ i ∈ ifs, i.ip ≠ pkt.srcAddr) :
    specSameAddress pkt.srcAddr ifs = false := by
  rw [specSameAddress, List.any_eq_false]
  intro i hi
  have hc := (sameAddrCheck_false_iff i pkt.srcAddr (hb i hi) hs).mpr (h i hi)
  simp [hc]

/-- Claim C1: when the packet source differs from the address of every
configured interface, an interface is selected for forwarding exactly
when its subnet does not match the source or it matches and its reverse
flag is set; in the two-interface scenario of the spec, local_network is
set, only interface A is selected, and the only datagram goes to
10.0.0.1. -/
theorem claim_c1 (pkt : Packet) (ifs : List Interface)
    (hb : ∀ i ∈ ifs, i.ip < 4294967296) (hs : pkt.srcAddr < 4294967296)
    (h : ∀ i ∈ ifs, i.ip ≠ pkt.srcAddr) :
    ((classifyLoop pkt ifs).agencies = specForwardSet pkt ifs ∧
      (classifyLoop pkt ifs).sameAddress = false) ∧
    (classifyLoop scenarioPkt scenarioIfs).localNetwork = true ∧
    (classifyLoop scenarioPkt scenarioIfs).agencies = [mkAgency ifA scenarioPkt] ∧
    executedSends 5353 scenarioIfs scenarioPkt =
      [{ target := 167772161, port := 5353, payload := scenarioPkt.payload }] := by
  have hf := specSameAddress_false pkt ifs hb hs h
  refine ⟨⟨?_, ?_⟩, by decide, by decide, by decide⟩
  · rw [classifyLoop_eq]
    simp only [selected_eq_spec _ _ hf, specForwardSet]
  · rw [classifyLoop_eq]
    simp [saF_eq_spec, hf]

theorem claim_c1_witness :
    (classifyLoop scenarioPkt scenarioIfs).agencies = specForwardSet scenarioPkt scenarioIfs ∧
    (classifyLoop scenarioPkt scenarioIfs).sameAddress = false :=
  (claim_c1 scenarioPkt scenarioIfs (by decide) (by decide) (by decide)).1

/-- Claim C2: if the packet source is numerically identical to the
address of some configured interface, the packet is dropped entirely:
no agency is started and no datagram is sent, whatever the position of
that interface and whatever the other interfaces match. -/
theorem claim_c2 (port : Nat) (ifs : List Interface) (pkt : Packet) (i : Interface)
    (hmem : i ∈ ifs) (heq : i.ip = pkt.srcAddr) :
    processPacket ifs pkt = [] ∧ executedSends port ifs pkt = [] := by
  have hsa : specSameAddress pkt.srcAddr ifs = true := by
    rw [specSameAddress, List.any_eq_true]
    exact ⟨i, hmem, sameAddrCheck_true_of_eq i pkt.srcAddr heq⟩
  have hp : processPacket ifs pkt = [] := by
    rw [processPacket_eq_twoPhase]
    simp [twoPhaseProcess, hsa]
  refine ⟨hp, ?_⟩
  rw [executedSends, hp]
  rfl

theorem claim_c2_witness :
    processPacket scenarioIfs { payload := [], srcAddr := 167772165, srcPort := 1 } = [] ∧
    executedSends 5353 scenarioIfs { payload := [], srcAddr := 167772165, srcPort := 1 } = [] :=
  claim_c2 5353 scenarioIfs { payload := [], srcAddr := 167772165, srcPort := 1 } ifA
    (by decide) rfl

/-- Claim C3: the collected agencies are started exactly when some
interface subnet matched the source and no interface address equalled
the source; in every other case nothing is started and nothing is
sent. -/
theorem claim_c3 (port : Nat) (ifs : List Interface) (pkt : Packet) :
    processPacket ifs pkt =
      (if specLocalNetwork pkt.srcAddr ifs && !(specSameAddress pkt.srcAddr ifs)
       then (classifyLoop pkt ifs).agencies else []) ∧
    executedSends port ifs pkt =
      (if specLocalNetwork pkt.srcAddr ifs && !(specSameAddress pkt.srcAddr ifs)
       then (((classifyLoop pkt ifs).agencies).map (Agency.sends port)).flatten
       else []) := by
  have hz : processPacket ifs pkt =
      if ((classifyLoop pkt ifs).localNetwork && !(classifyLoop pkt ifs).sameAddress) = true
      then (classifyLoop pkt ifs).agencies else [] := rfl
  have hp : processPacket ifs pkt =
      (if specLocalNetwork pkt.srcAddr ifs && !(specSameAddress pkt.srcAddr ifs)
       then (classifyLoop pkt ifs).agencies else []) := by
    rw [hz, gate_eq]
  refine ⟨hp, ?_⟩
  rw [executedSends, hp]
  by_cases hg : (specLocalNetwork pkt.srcAddr ifs && !(specSameAddress pkt.srcAddr ifs)) = true
  · rw [if_pos hg, if_pos hg]
  · rw [if_neg hg, if_neg hg]
    rfl

/-- Claim C4: one agency sends exactly one copy of the payload to each
occurrence of a forward target different from the packet source, and it
never sends to a target equal to the packet source. -/
theorem claim_c4 (port : Nat) (a : Agency) (t : Nat)
    (ht : t < 4294967296) (hs : a.data.srcAddr < 4294967296) :
    ((Agency.sends port a).count
        { target := t, port := port, payload := a.data.payload }
      = if t = a.data.srcAddr then 0 else a.forwardto.count t) ∧
    ∀ sd ∈ Agency.sends port a, sd.target ≠ a.data.srcAddr := by
  constructor
  · have hinj : Function.Injective
        (fun x => ({ target := x, port := port, payload := a.data.payload } : Send)) := by
      intro x y hxy
      simpa using congrArg Send.target hxy
    have hcm := List.count_map_of_injective
      (a.forwardto.filter fun x =>
        !(networkAddress a.data.srcAddr mask32 == networkAddress x mask32))
      (fun x => ({ target := x, port := port, payload := a.data.payload } : Send)) hinj t
    rw [Agency.sends, hcm]
    by_cases he : t = a.data.srcAddr
    · rw [if_pos he]
      rw [List.count_eq_zero]
      intro hmem
      have hp := List.of_mem_filter hmem
      rw [he] at hp
      simp at hp
    · rw [if_neg he]
      apply List.count_filter
      have hm : networkAddress a.data.srcAddr mask32 ≠ networkAddress t mask32 := by
        rw [networkAddress, networkAddress, land_mask32_of_lt _ hs, land_mask32_of_lt _ ht]
        exact fun hc => he hc.symm
      simpa using hm
  · intro sd hsd
    rw [Agency.sends] at hsd
    rcases List.mem_map.mp hsd with ⟨x, hx, hsx⟩
    have hp := List.of_mem_filter hx
    intro hc
    rw [← hsx] at hc
    simp only at hc
    rw [hc] at hp
    simp [networkAddress] at hp

theorem claim_c4_witness :
    ((Agency.sends 5353 (mkAgency ifA scenarioPkt)).count
        { target := 167772161, port := 5353,
          payload := (mkAgency ifA scenarioPkt).data.payload }
      = if (167772161 : Nat) = (mkAgency ifA scenarioPkt).data.srcAddr then 0
        else (mkAgency ifA scenarioPkt).forwardto.count 167772161) ∧
    ∀ sd ∈ Agency.sends 5353 (mkAgency ifA scenarioPkt),
      sd.target ≠ (mkAgency ifA scenarioPkt).data.srcAddr :=
  claim_c4 5353 (mkAgency ifA scenarioPkt) 167772161 (by decide) (by decide)

/-- Claim C5, counterexample: two forward tasks exist for the packet;
the first target of the first task fails; the result is zero datagrams
sent (neither the remaining target 6 of the first task nor target 7 of
the second task is attempted) and the loop ends at once, never reaching
the next receive event. -/
theorem claim_c5_counterexample :
    processPacket cexIfs cexPkt = [mkAgency cexIf1 cexPkt, mkAgency cexIf2 cexPkt] ∧
    runAgenciesE failsOn5 5353 (processPacket cexIfs cexPkt) = ([], false) ∧
    runLoop failsOn5 cexState [.packet cexPkt, .timeout] = [.crashed []] := by
  refine ⟨by decide, by decide, by decide⟩

/-- Claim C5 as amended: when sock.sendto raises on a target, the
targets after it are never attempted (the outcome does not depend on
them), the forward task fails, and because line 141 catches only
socket.timeout, a failed iteration terminates the receive loop. -/
theorem claim_c5_amended_thm (failing : Nat → Bool) (src port : Nat) (payload : List Nat)
    (pre : List Nat) (t : Nat) (ts ts2 : List Nat)
    (hpre : ∀ x ∈ pre,
      networkAddress src mask32 = networkAddress x mask32 ∨ failing x = false)
    (hne : networkAddress src mask32 ≠ networkAddress t mask32)
    (hfail : failing t = true) :
    (forwardE failing src port payload (pre ++ t :: ts)
        = forwardE failing src port payload (pre ++ t :: ts2)) ∧
    (forwardE failing src port payload (pre ++ t :: ts)).2 = false ∧
    ∀ (s : ProxyState) (p : Packet) (evs : List RecvEvent),
      (runAgenciesE failing s.port (processPacket s.interfaces p)).2 = false →
      runLoop failing s (.packet p :: evs)
        = [.crashed (runAgenciesE failing s.port (processPacket s.interfaces p)).1] := by
  have hmain : ∀ pre2 : List Nat,
      (∀ x ∈ pre2,
        networkAddress src mask32 = networkAddress x mask32 ∨ failing x = false) →
      (forwardE failing src port payload (pre2 ++ t :: ts)
          = forwardE failing src port payload (pre2 ++ t :: ts2)) ∧
      (forwardE failing src port payload (pre2 ++ t :: ts)).2 = false := by
    intro pre2
    induction pre2 with
    | nil =>
      intro _
      have h1 : (networkAddress src mask32 == networkAddress t mask32) = false := by
        simpa using hne
      constructor <;> simp [forwardE, h1, hfail]
    | cons x xs ih =>
      intro hx
      have hxs := ih fun y hy => hx y (List.mem_cons_of_mem x hy)
      have h2 : (forwardE failing src port payload (xs ++ t :: ts2)).2 = false := by
        rw [← hxs.1]
        exact hxs.2
      rcases hx x (List.mem_cons_self x xs) with hskip | hok
      · have hb : (networkAddress src mask32 == networkAddress x mask32) = true := by
          simpa using hskip
        constructor <;> simp [forwardE, hb, hxs.1, hxs.2, h2]
      · by_cases hb : (networkAddress src mask32 == networkAddress x mask32) = true
        · constructor <;> simp [forwardE, hb, hxs.1, hxs.2, h2]
        · constructor <;>
            simp [forwardE, Bool.not_eq_true _ ▸ hb, hok, hxs.1, hxs.2, h2]
  refine ⟨(hmain pre hpre).1, (hmain pre hpre).2, ?_⟩
  intro s p evs hrun
  have hstep : loopIterE failing s (.packet p)
      = (s, .crashed (runAgenciesE failing s.port (processPacket s.interfaces p)).1) := by
    simp [loopIterE, hrun]
  rw [runLoop, hstep]

theorem claim_c5_witness :
    (forwardE failsOn5 100 5353 [9] [5, 6] = forwardE failsOn5 100 5353 [9] [5]) ∧
    runLoop failsOn5 cexState [.packet cexPkt]
      = [.crashed (runAgenciesE failsOn5 cexState.port
          (processPacket cexState.interfaces cexPkt)).1] := by
  have h := claim_c5_amended_thm failsOn5 100 5353 [9] [] 5 [6] []
    (by intro x hx; cases hx) (by decide) (by decide)
  exact ⟨h.1, h.2.2 cexState cexPkt [] (by decide)⟩

/-- Claim C6: the single-pass classification with its early exit yields
the same accept gate and the same executed forward set and datagrams as
the two-phase classification described by the spec. -/
theorem claim_c6 (port : Nat) (ifs : List Interface) (pkt : Packet) :
    processPacket ifs pkt = twoPhaseProcess ifs pkt ∧
    (((classifyLoop pkt ifs).localNetwork && !(classifyLoop pkt ifs).sameAddress)
       = (specLocalNetwork pkt.srcAddr ifs && !(specSameAddress pkt.srcAddr ifs))) ∧
    executedSends port ifs pkt
      = ((twoPhaseProcess ifs pkt).map (Agency.sends port)).flatten := by
  refine ⟨processPacket_eq_twoPhase ifs pkt, gate_eq pkt ifs, ?_⟩
  rw [executedSends, processPacket_eq_twoPhase]

/-- Claim C7: with no send failures, handling the same packet twice in a
row yields two identical iteration results, because the loop carries no
state between iterations beyond the immutable interface list. -/
theorem claim_c7 (s : ProxyState) (p : Packet) :
    runLoop (fun _ => false) s [.packet p, .packet p]
      = [.ok (executedSends s.port s.interfaces p),
         .ok (executedSends s.port s.interfaces p)] := by
  have h := runAgenciesE_nofail s.port (processPacket s.interfaces p)
  have hstep : loopIterE (fun _ => false) s (.packet p)
      = (s, .ok (executedSends s.port s.interfaces p)) := by
    simp [loopIterE, h, executedSends]
  rw [runLoop, hstep]
  rw [runLoop, hstep]
  rfl

/-- Claim C8: every datagram sent while handling a packet carries the
received payload byte for byte, and the loop state (interface list and
port) is unchanged by processing the packet. -/
theorem claim_c8 (failing : Nat → Bool) (s : ProxyState) (p : Packet) :
    ((loopIterE failing s (.packet p)).2.sendsOf.all
        fun sd => sd.payload == p.payload) = true ∧
    (loopIterE failing s (.packet p)).1 = s := by
  constructor
  · have hsends : (loopIterE failing s (.packet p)).2.sendsOf
        = (runAgenciesE failing s.port (processPacket s.interfaces p)).1 := by
      by_cases hr : (runAgenciesE failing s.port (processPacket s.interfaces p)).2
      · simp [loopIterE, IterResult.sendsOf, hr]
      · simp only [Bool.not_eq_true] at hr
        simp [loopIterE, IterResult.sendsOf, hr]
    rw [hsends, List.all_eq_true]
    intro sd hsd
    have hpl := runAgenciesE_payload failing s.port (processPacket s.interfaces p)
      p.payload (fun a ha => by rw [processPacket_data s.interfaces p a ha]) sd hsd
    simpa using hpl
  · by_cases hr : (runAgenciesE failing s.port (processPacket s.interfaces p)).2 <;>
      simp [loopIterE]

/-- Claim C9: a receive timeout is caught, produces no sends and no
state change, and the loop goes on to the next receive event; it is
never treated as a loop-ending error. -/
theorem claim_c9 (failing : Nat → Bool) (s : ProxyState) (evs : List RecvEvent) :
    runLoop failing s (.timeout :: evs) = .ok [] :: runLoop failing s evs ∧
    (loopIterE failing s .timeout).1 = s ∧
    (loopIterE failing s .timeout).2 = .ok [] :=
  ⟨rfl, rfl, rfl⟩

lemma sends_targets (port : Nat) (i : Interface) (p : Packet) :
    (Agency.sends port (mkAgency i p)).map (fun sd => (sd.target, sd.port))
      = (i.forwardto.filter fun t =>
          !(networkAddress p.srcAddr mask32 == networkAddress t mask32)).map
          fun t => (t, port) := by
  simp [Agency.sends, mkAgency, List.map_map, Function.comp]

lemma agencies_pairs (ifs : List Interface) (p : Packet) :
    ((classifyLoop p ifs).agencies.map fun a => (a.ip, a.forwardto))
      = (selectedInterfaces p.srcAddr ifs).map fun i => (i.ip, i.forwardto) := by
  rw [classifyLoop_eq]
  simp [List.map_map, Function.comp, mkAgency]

lemma processPacket_pairs (ifs : List Interface) (p : Packet) :
    ((processPacket ifs p).map fun a => (a.ip, a.forwardto))
      = if specLocalNetwork p.srcAddr ifs && !(specSameAddress p.srcAddr ifs)
        then (selectedInterfaces p.srcAddr ifs).map fun i => (i.ip, i.forwardto)
        else [] := by
  have hz : processPacket ifs p =
      if ((classifyLoop p ifs).localNetwork && !(classifyLoop p ifs).sameAddress) = true
      then (classifyLoop p ifs).agencies else [] := rfl
  rw [hz, gate_eq]
  by_cases hg : (specLocalNetwork p.srcAddr ifs && !(specSameAddress p.srcAddr ifs)) = true
  · rw [if_pos hg, if_pos hg, agencies_pairs]
  · rw [if_neg hg, if_neg hg]
    rfl

lemma executedSends_targets (port : Nat) (ifs : List Interface) (p : Packet) :
    ((executedSends port ifs p).map fun sd => (sd.target, sd.port))
      = if specLocalNetwork p.srcAddr ifs && !(specSameAddress p.srcAddr ifs)
        then ((selectedInterfaces p.srcAddr ifs).map fun i =>
            (i.forwardto.filter fun t =>
              !(networkAddress p.srcAddr mask32 == networkAddress t mask32)).map
              fun t => (t, port)).flatten
        else [] := by
  have hz : processPacket ifs p =
      if ((classifyLoop p ifs).localNetwork && !(classifyLoop p ifs).sameAddress) = true
      then (classifyLoop p ifs).agencies else [] := rfl
  rw [executedSends, hz, gate_eq]
  by_cases hg : (specLocalNetwork p.srcAddr ifs && !(specSameAddress p.srcAddr ifs)) = true
  · rw [if_pos hg, if_pos hg, classifyLoop_eq]
    dsimp only
    rw [List.map_flatten, List.map_map, List.map_map]
    congr 1
    apply List.map_congr_left
    intro i _
    exact sends_targets port i p
  · rw [if_neg hg, if_neg hg]
    rfl

/-- Claim C10: the relay decision depends only on the source address and
the interface list: two packets with the same source but different
payloads and ports get the same flags, the same selected interfaces with
their targets, and datagrams to the same destinations. -/
theorem claim_c10 (port : Nat) (ifs : List Interface) (p1 p2 : Packet)
    (h : p1.srcAddr = p2.srcAddr) :
    (classifyLoop p1 ifs).sameAddress = (classifyLoop p2 ifs).sameAddress ∧
    (classifyLoop p1 ifs).localNetwork = (classifyLoop p2 ifs).localNetwork ∧
    ((classifyLoop p1 ifs).agencies.map fun a => (a.ip, a.forwardto))
      = ((classifyLoop p2 ifs).agencies.map fun a => (a.ip, a.forwardto)) ∧
    ((processPacket ifs p1).map fun a => (a.ip, a.forwardto))
      = ((processPacket ifs p2).map fun a => (a.ip, a.forwardto)) ∧
    ((executedSends port ifs p1).map fun sd => (sd.target, sd.port))
      = ((executedSends port ifs p2).map fun sd => (sd.target, sd.port)) := by
  refine ⟨?_, ?_, ?_, ?_, ?_⟩
  · rw [classifyLoop_eq, classifyLoop_eq, h]
  · rw [classifyLoop_eq, classifyLoop_eq, h]
  · rw [agencies_pairs, agencies_pairs, h]
  · rw [processPacket_pairs, processPacket_pairs, h]
  · rw [executedSends_targets, executedSends_targets, h]

theorem claim_c10_witness :
    ((classifyLoop scenarioPkt scenarioIfs).sameAddress
        = (classifyLoop { payload := [7, 7], srcAddr := 3232235826, srcPort := 9 }
            scenarioIfs).sameAddress) ∧
    ((classifyLoop scenarioPkt scenarioIfs).localNetwork
        = (classifyLoop { payload := [7, 7], srcAddr := 3232235826, srcPort := 9 }
            scenarioIfs).localNetwork) ∧
    (((classifyLoop scenarioPkt scenarioIfs).agencies.map fun a => (a.ip, a.forwardto))
        = ((classifyLoop { payload := [7, 7], srcAddr := 3232235826, srcPort := 9 }
            scenarioIfs).agencies.map fun a => (a.ip, a.forwardto))) ∧
    (((processPacket scenarioIfs scenarioPkt).map fun a => (a.ip, a.forwardto))
        = ((processPacket scenarioIfs
            { payload := [7, 7], srcAddr := 3232235826, srcPort := 9 }).map
            fun a => (a.ip, a.forwardto))) ∧
    (((executedSends 5353 scenarioIfs scenarioPkt).map fun sd => (sd.target, sd.port))
        = ((executedSends 5353 scenarioIfs
            { payload := [7, 7], srcAddr := 3232235826, srcPort := 9 }).map
            fun sd => (sd.target, sd.port))) :=
  claim_c10 5353 scenarioIfs scenarioPkt
    { payload := [7, 7], srcAddr := 3232235826, srcPort := 9 } rfl

end MdnsProxy
